import Mathlib

/-! The `cmodel` driver of microhh (`include/model.h`).

The header declares the top-level driver class `cmodel`: its life-cycle
member functions, the scheme-switch strings, the grid and field stores, the
model operators and the post-processing modules.

Part I embeds the class declaration itself, member by member, and settles the
statements about which switches and operators the driver holds.

Part II models the collaborators whose bodies are not part of the header
(the halo exchange behind `cmpi`, the driver sequence behind
`readinifile`/`init`/`exec`) from the written specification, and settles the
statements about them against those models.
-/

namespace Microhh

/-! ## Part I: the class declaration -/

/-- One data member of a class: the type as written, whether it is declared
as a pointer (`T *name;`), and the member name. -/
structure DataMember where
  type : String
  pointer : Bool
  name : String
  deriving DecidableEq, Repr

/-- A run of consecutive member declarations (separated from the next run by a
blank line), with the `//` comment that heads it, when there is one. -/
structure Paragraph where
  comment : Option String
  members : List DataMember
  deriving DecidableEq, Repr

/-- A member function: return type, name, parameter types. -/
structure MemberFunction where
  ret : String
  name : String
  params : List String
  deriving DecidableEq, Repr

/-- The public member functions of `cmodel` (constructor and destructor
left out), in declaration order. -/
def cmodelPublicFunctions : List MemberFunction :=
  [ ⟨"int", "readinifile", []⟩,
    ⟨"int", "init", []⟩,
    ⟨"int", "create", []⟩,
    ⟨"int", "load", []⟩,
    ⟨"int", "save", []⟩,
    ⟨"int", "exec", []⟩ ]

/-- The private member functions of `cmodel`. -/
def cmodelPrivateFunctions : List MemberFunction :=
  [ ⟨"int", "outputfile", ["bool"]⟩,
    ⟨"int", "settimestep", []⟩ ]

/-- The private data members of `cmodel`, paragraph by paragraph, in
declaration order. -/
def cmodelPrivateData : List Paragraph :=
  [ ⟨none,
      [ ⟨"cmpi", true, "mpi"⟩,
        ⟨"cinput", true, "input"⟩ ]⟩,
    ⟨some "switches for included schemes",
      [ ⟨"std::string", false, "swadvec"⟩,
        ⟨"std::string", false, "swdiff"⟩,
        ⟨"std::string", false, "swpres"⟩,
        ⟨"std::string", false, "swboundary"⟩,
        ⟨"std::string", false, "swthermo"⟩ ]⟩,
    ⟨none,
      [ ⟨"std::string", false, "swstats"⟩ ]⟩,
    ⟨none,
      [ ⟨"cgrid", true, "grid"⟩,
        ⟨"cfields", true, "fields"⟩ ]⟩,
    ⟨some "model operators",
      [ ⟨"cboundary", true, "boundary"⟩,
        ⟨"ctimeloop", true, "timeloop"⟩,
        ⟨"cadvec", true, "advec"⟩,
        ⟨"cdiff", true, "diff"⟩,
        ⟨"cpres", true, "pres"⟩,
        ⟨"cforce", true, "force"⟩,
        ⟨"cthermo", true, "thermo"⟩,
        ⟨"cbuffer", true, "buffer"⟩ ]⟩,
    ⟨some "load the postprocessing modules",
      [ ⟨"cstats", true, "stats"⟩,
        ⟨"ccross", true, "cross"⟩ ]⟩ ]

/-- All private data members, in declaration order. -/
def cmodelDataMembers : List DataMember :=
  cmodelPrivateData.flatMap Paragraph.members

/-- The members declared in the paragraphs headed by the given comment. -/
def membersUnder (heading : String) : List DataMember :=
  (cmodelPrivateData.filter (fun p => p.comment = some heading)).flatMap Paragraph.members

/-- The switch strings of the driver: its `std::string` data members. -/
def switchStrings : List DataMember :=
  cmodelDataMembers.filter (fun m => m.type = "std::string" ∧ m.pointer = false)

/-- The model operators of the driver: the members declared under
`// model operators`. -/
def modelOperators : List DataMember :=
  membersUnder "model operators"

/-- The post-processing modules of the driver: the members declared under
`// load the postprocessing modules`. -/
def postprocessingModules : List DataMember :=
  membersUnder "load the postprocessing modules"

/-- The naming convention that ties a switch string to the member it
configures: the switch for member `x` is called `swx`. -/
def selects (sw op : DataMember) : Bool :=
  sw.name = "sw" ++ op.name

/-- The switch strings that select a given member. -/
def switchesFor (op : DataMember) : List DataMember :=
  switchStrings.filter (fun sw => selects sw op)

/-- The model operators a given switch string selects. -/
def operatorsFor (sw : DataMember) : List DataMember :=
  modelOperators.filter (fun op => selects sw op)

/-- The switch kinds the configuration interface supplies, in the words of
the specification: advection kind, diffusion kind, pressure-solver kind,
boundary kind, thermodynamics kind, statistics on/off. -/
inductive SwitchKind
  | advection
  | diffusion
  | pressureSolver
  | boundary
  | thermodynamics
  | statistics
  deriving DecidableEq, Repr

/-- Every switch kind, in the order the specification lists them. -/
def SwitchKind.all : List SwitchKind :=
  [.advection, .diffusion, .pressureSolver, .boundary, .thermodynamics, .statistics]

/-- The member of `cmodel` that holds the switch of a given kind. -/
def SwitchKind.memberName : SwitchKind → String
  | .advection => "swadvec"
  | .diffusion => "swdiff"
  | .pressureSolver => "swpres"
  | .boundary => "swboundary"
  | .thermodynamics => "swthermo"
  | .statistics => "swstats"

/-- The one-to-one correspondence between switch strings and model
operators, in the words of the specification: every model operator has
exactly one switch string and every switch string selects exactly one model
operator. -/
def SwitchOperatorCorrespondence : Prop :=
  (∀ op ∈ modelOperators, (switchesFor op).length = 1) ∧
  (∀ sw ∈ switchStrings, (operatorsFor sw).length = 1)

/-! ## Part II: collaborators modelled from the specification

The header names the collaborators (`cmpi *mpi`, `cgrid *grid`,
`cfields *fields`, `int readinifile()`, `int init()`, `int exec()`) but holds
none of their bodies. The definitions below follow the written
specification of those collaborators. -/

/-- Modelled from the spec: the per-process part of `Grid` (§3), which the
header only names as `cgrid *grid`. `nx`, `ny`, `nz` are the local numbers of
owned cells, `halo` the halo width (the same on every process), `px` and `py`
the process decomposition along the two horizontal axes. -/
structure Grid where
  nx : Nat
  ny : Nat
  nz : Nat
  halo : Nat
  px : Nat
  py : Nat
  deriving DecidableEq, Repr

/-- Modelled from the spec: the process-topology interface (§6), which the
header only names as `cmpi *mpi`. It supplies, for a rank, the neighbour rank
on either side along each decomposed axis (a pure lookup). -/
structure Topology where
  west : Nat → Nat
  east : Nat → Nat
  south : Nat → Nat
  north : Nat → Nat

/-- Modelled from the spec: a `Field` (§3) is a 3-D array over the
local-subdomain-plus-halo cells; cell `(i, j, k)` has `i < nx + 2 * halo`,
`j < ny + 2 * halo`, `k < nz`. The header only names the store as
`cfields *fields`. -/
abbrev Field (α : Type) := Nat → Nat → Nat → α

/-- A field on every process: rank, then local cell. -/
abbrev DistField (α : Type) := Nat → Field α

/-- Cell `(i, j, k)` lies in the local array. -/
def Grid.inArray (g : Grid) (i j k : Nat) : Prop :=
  i < g.nx + 2 * g.halo ∧ j < g.ny + 2 * g.halo ∧ k < g.nz

/-- Cell `(i, j, k)` is an owned interior cell: inside the array and outside
the halo layer on every side. -/
def Grid.owned (g : Grid) (i j k : Nat) : Prop :=
  (g.halo ≤ i ∧ i < g.halo + g.nx) ∧ (g.halo ≤ j ∧ j < g.halo + g.ny) ∧ k < g.nz

/-- Cell `(i, j, k)` is a halo cell: in the array and not owned. -/
def Grid.isHalo (g : Grid) (i j k : Nat) : Prop :=
  g.inArray i j k ∧ ¬ g.owned i j k

instance (g : Grid) (i j k : Nat) : Decidable (g.inArray i j k) := by
  unfold Grid.inArray; infer_instance

instance (g : Grid) (i j k : Nat) : Decidable (g.owned i j k) := by
  unfold Grid.owned; infer_instance

instance (g : Grid) (i j k : Nat) : Decidable (g.isHalo i j k) := by
  unfold Grid.isHalo; infer_instance

/-- Modelled from the spec: the exchange of `synchronize` (§4.3) along the
first horizontal axis, missing from the header. When the axis is decomposed,
every west halo cell receives the matching cell of the west neighbour's
outermost (easternmost) halo-wide layer of owned cells, every east halo cell
the matching cell of the east neighbour's westernmost layer; no other cell is
written. -/
def exchangeX {α : Type} (g : Grid) (t : Topology) (f : DistField α) : DistField α :=
  fun r i j k =>
    if g.px ≤ 1 then f r i j k
    else if i < g.halo then f (t.west r) (i + g.nx) j k
    else if g.halo + g.nx ≤ i ∧ i < g.nx + 2 * g.halo then f (t.east r) (i - g.nx) j k
    else f r i j k

/-- Modelled from the spec: the exchange of `synchronize` (§4.3) along the
second horizontal axis, missing from the header; as `exchangeX`, with the
south and north neighbours. -/
def exchangeY {α : Type} (g : Grid) (t : Topology) (f : DistField α) : DistField α :=
  fun r i j k =>
    if g.py ≤ 1 then f r i j k
    else if j < g.halo then f (t.south r) i (j + g.ny) k
    else if g.halo + g.ny ≤ j ∧ j < g.ny + 2 * g.halo then f (t.north r) i (j - g.ny) k
    else f r i j k

/-- Modelled from the spec: `synchronize(field)` (§4.3), missing from the
header: the exchange with each topological neighbour along every decomposed
axis, one axis after the other. -/
def synchronize {α : Type} (g : Grid) (t : Topology) (f : DistField α) : DistField α :=
  exchangeY g t (exchangeX g t f)

/-- The periodic Cartesian topology of a `px` by `py` decomposition, rank
`p + px * q` for the process at column `p`, row `q`. -/
def periodicTopology (px py : Nat) : Topology where
  west r := (r % px + px - 1) % px + px * (r / px)
  east r := (r % px + 1) % px + px * (r / px)
  south r := r % px + px * ((r / px + py - 1) % py)
  north r := r % px + px * ((r / px + 1) % py)

/-- Modelled from the spec: the error taxonomy of §7. The header shows only
`int` status returns. -/
inductive DriverError
  | ConfigurationError
  | DivergenceError
  | SingularSystemError
  | CommunicationError
  deriving DecidableEq, Repr

/-- Modelled from the spec: the immutable configuration snapshot of §6, as
far as the driver sequence needs it: one switch value per switch member of
`cmodel`, and the end time. -/
structure Configuration where
  swadvec : String
  swdiff : String
  swpres : String
  swboundary : String
  swthermo : String
  swstats : String
  endTime : Nat
  deriving DecidableEq, Repr

/-- The configured value of the switch of a given kind. -/
def Configuration.switch (c : Configuration) : SwitchKind → String
  | .advection => c.swadvec
  | .diffusion => c.swdiff
  | .pressureSolver => c.swpres
  | .boundary => c.swboundary
  | .thermodynamics => c.swthermo
  | .statistics => c.swstats

/-- Modelled from the spec: `TimeState` (§3), with time counted in integer
ticks. -/
structure TimeState where
  simulationTime : Nat
  stepIndex : Nat
  dt : Nat
  cflLimit : Nat
  deriving DecidableEq, Repr

/-- Modelled from the spec: what the driver is wired to (§4.5, §6), none of
which the header defines: the closed set of recognised values of each switch
kind, the state `create` sets up, and the time integrator's
`advanceOneStep`, which returns the advanced state or fails. -/
structure Collaborators (σ : Type) where
  recognised : SwitchKind → String → Bool
  create : Configuration → σ × TimeState
  advanceOneStep : σ × TimeState → Except DriverError (σ × TimeState)

/-- What a run of the driver comes to: the final state or the error, and the
number of time steps that were executed. -/
structure Outcome (σ : Type) where
  result : Except DriverError (σ × TimeState)
  stepsExecuted : Nat

/-- Modelled from the spec: `init` (§4.5, §7), whose body (`int init()`,
`int readinifile()`) is missing from the header: it instantiates the
operators the scheme switches select and fails with `ConfigurationError`
when a switch value is not a recognised one. -/
def init {σ : Type} (env : Collaborators σ) (cfg : Configuration) : Except DriverError Unit :=
  if SwitchKind.all.all (fun k => env.recognised k (cfg.switch k)) then .ok ()
  else .error .ConfigurationError

/-- Modelled from the spec: the loop of `exec` (§4.5), whose body
(`int exec()`) is missing from the header: `advanceOneStep` until the end
time, stopping at the first error. `fuel` bounds the number of iterations;
`n` counts the steps executed so far. -/
def execLoop {σ : Type} (env : Collaborators σ) (endTime : Nat) :
    Nat → σ × TimeState → Nat → Outcome σ
  | 0, s, n => ⟨.ok s, n⟩
  | fuel + 1, s, n =>
    if endTime ≤ s.2.simulationTime then ⟨.ok s, n⟩
    else
      match env.advanceOneStep s with
      | .error e => ⟨.error e, n⟩
      | .ok s' => execLoop env endTime fuel s' (n + 1)

/-- Modelled from the spec: the driver sequence of §4.5, missing from the
header: read the configuration, `init`, `create`, then `exec`. An error of
`init` ends the run before `create` and `exec`. -/
def run {σ : Type} (env : Collaborators σ) (cfg : Configuration) (fuel : Nat) : Outcome σ :=
  match init env cfg with
  | .error e => ⟨.error e, 0⟩
  | .ok () => execLoop env cfg.endTime fuel (env.create cfg) 0

/-! ## Example inputs -/

/-- The switch-string member `swstats`. -/
def swstatsMember : DataMember := ⟨"std::string", false, "swstats"⟩

/-- The model-operator member `timeloop`. -/
def timeloopMember : DataMember := ⟨"ctimeloop", true, "timeloop"⟩

/-- The post-processing member `stats`. -/
def statsMember : DataMember := ⟨"cstats", true, "stats"⟩

/-- A subdomain of 2 by 2 by 1 owned cells with a halo one cell wide, in a
2 by 1 process decomposition. -/
def exampleGrid : Grid := ⟨2, 2, 1, 1, 2, 1⟩

/-- A subdomain of 3 by 2 by 1 owned cells with a halo one cell wide, in a
2 by 2 process decomposition. -/
def exampleGrid2 : Grid := ⟨3, 2, 1, 1, 2, 2⟩

/-- A subdomain of 1 by 4 by 1 owned cells with a halo two cells wide, in a
2 by 1 process decomposition: thinner than its halo along the decomposed
axis. -/
def thinGrid : Grid := ⟨1, 4, 1, 2, 2, 1⟩

/-- A field whose value names its rank and cell: `1000 r + 100 i + 10 j + k`. -/
def exampleField : DistField Nat := fun r i j k => 1000 * r + 100 * i + 10 * j + k

/-- Collaborators over a state without fields: advection kinds `2` and `4`,
every other switch kind `0` or `1`, a unit time step that always succeeds. -/
def exampleCollaborators : Collaborators Unit where
  recognised k v :=
    match k with
    | .advection => v = "2" || v = "4"
    | _ => v = "0" || v = "1"
  create _ := ((), ⟨0, 0, 1, 1⟩)
  advanceOneStep s :=
    .ok ((), { s.2 with simulationTime := s.2.simulationTime + s.2.dt,
                        stepIndex := s.2.stepIndex + 1 })

/-- A configuration whose advection kind is not a recognised one. -/
def badConfiguration : Configuration := ⟨"9", "1", "1", "1", "0", "0", 3⟩

/-- A configuration whose every switch is recognised. -/
def goodConfiguration : Configuration := ⟨"2", "1", "1", "1", "0", "0", 3⟩

/-! ## Theorems, Part I: the class declaration -/

/-- The declaration holds six switch strings and eight model operators, so
whatever relation ties a switch to an operator, it is no bijection. -/
theorem switchStrings_modelOperators_no_bijection :
    switchStrings.length = 6 ∧ modelOperators.length = 8 ∧
    ¬ ∃ f : Fin switchStrings.length → Fin modelOperators.length, Function.Bijective f := by
  refine ⟨by decide, by decide, ?_⟩
  rintro ⟨f, hf⟩
  have h := Fintype.card_of_bijective hf
  simp only [Fintype.card_fin] at h
  revert h
  decide

/-- C9, as stated, fails on the declaration: the model operator `timeloop`
has no switch string, the switch string `swstats` selects no model operator,
and so the one-to-one correspondence does not hold. -/
theorem switch_operator_correspondence_fails :
    (timeloopMember ∈ modelOperators ∧ switchesFor timeloopMember = []) ∧
    (swstatsMember ∈ switchStrings ∧ operatorsFor swstatsMember = []) ∧
    ¬ SwitchOperatorCorrespondence := by
  unfold SwitchOperatorCorrespondence
  decide

/-- C9, amended: the five switch strings declared under
`// switches for included schemes` (`swadvec`, `swdiff`, `swpres`,
`swboundary`, `swthermo`) each select exactly one model operator, no model
operator is selected by two switch strings, the operators with a switch are
`boundary`, `advec`, `diff`, `pres`, `thermo`, the operators `timeloop`,
`force`, `buffer` have none, and the sixth switch string `swstats` selects no
model operator but the post-processing module `stats`. -/
theorem switch_operator_partial_correspondence :
    (membersUnder "switches for included schemes").map DataMember.name
      = ["swadvec", "swdiff", "swpres", "swboundary", "swthermo"] ∧
    (∀ sw ∈ membersUnder "switches for included schemes", (operatorsFor sw).length = 1) ∧
    (∀ op ∈ modelOperators, (switchesFor op).length ≤ 1) ∧
    (modelOperators.filter (fun op => (switchesFor op).length = 1)).map DataMember.name
      = ["boundary", "advec", "diff", "pres", "thermo"] ∧
    (modelOperators.filter (fun op => (switchesFor op).length = 0)).map DataMember.name
      = ["timeloop", "force", "buffer"] ∧
    switchStrings.filter (fun sw => (operatorsFor sw).length = 0) = [swstatsMember] ∧
    postprocessingModules.filter (fun m => selects swstatsMember m) = [statsMember] := by
  decide

/-- C10: the switch strings the driver holds are exactly the members for the
six kinds the configuration interface supplies (advection, diffusion,
pressure solver, boundary, thermodynamics, statistics), one member per kind,
in that order, and no other data member of `cmodel` is a string. -/
theorem switchStrings_are_the_six_kinds :
    switchStrings.map DataMember.name = SwitchKind.all.map SwitchKind.memberName ∧
    switchStrings.map DataMember.name
      = ["swadvec", "swdiff", "swpres", "swboundary", "swthermo", "swstats"] ∧
    (switchStrings.map DataMember.name).Nodup ∧
    (∀ k : SwitchKind, k ∈ SwitchKind.all) ∧
    (∀ m ∈ cmodelDataMembers, m ∉ switchStrings → m.type ≠ "std::string") := by
  refine ⟨by decide, by decide, by decide, ?_, by decide⟩
  intro k
  cases k <;> decide

/-! ## Theorems, Part II: the halo exchange -/

theorem exchangeX_apply {α : Type} (g : Grid) (t : Topology) (f : DistField α) (r i j k : Nat) :
    exchangeX g t f r i j k =
      if g.px ≤ 1 then f r i j k
      else if i < g.halo then f (t.west r) (i + g.nx) j k
      else if g.halo + g.nx ≤ i ∧ i < g.nx + 2 * g.halo then f (t.east r) (i - g.nx) j k
      else f r i j k := rfl

theorem exchangeY_apply {α : Type} (g : Grid) (t : Topology) (f : DistField α) (r i j k : Nat) :
    exchangeY g t f r i j k =
      if g.py ≤ 1 then f r i j k
      else if j < g.halo then f (t.south r) i (j + g.ny) k
      else if g.halo + g.ny ≤ j ∧ j < g.ny + 2 * g.halo then f (t.north r) i (j - g.ny) k
      else f r i j k := rfl

/-- A column the exchange along the first axis does not write: the axis is
not decomposed, or the column is neither in the west nor in the east halo. -/
theorem exchangeX_fixed {α : Type} (g : Grid) (t : Topology) (f : DistField α) (r i j k : Nat)
    (h : g.px ≤ 1 ∨ (g.halo ≤ i ∧ ¬ (g.halo + g.nx ≤ i ∧ i < g.nx + 2 * g.halo))) :
    exchangeX g t f r i j k = f r i j k := by
  rw [exchangeX_apply]
  split_ifs with h1 h2 h3
  · rfl
  · omega
  · rcases h with h | h
    · exact absurd h h1
    · exact absurd h3 h.2
  · rfl

/-- A row the exchange along the second axis does not write. -/
theorem exchangeY_fixed {α : Type} (g : Grid) (t : Topology) (f : DistField α) (r i j k : Nat)
    (h : g.py ≤ 1 ∨ (g.halo ≤ j ∧ ¬ (g.halo + g.ny ≤ j ∧ j < g.ny + 2 * g.halo))) :
    exchangeY g t f r i j k = f r i j k := by
  rw [exchangeY_apply]
  split_ifs with h1 h2 h3
  · rfl
  · omega
  · rcases h with h | h
    · exact absurd h h1
    · exact absurd h3 h.2
  · rfl

/-- The exchange along the first axis writes row `j` from row `j` alone. -/
theorem exchangeX_congr_row {α : Type} (g : Grid) (t : Topology) (f f' : DistField α)
    (j k : Nat) (h : ∀ r i, f r i j k = f' r i j k) (r i : Nat) :
    exchangeX g t f r i j k = exchangeX g t f' r i j k := by
  simp only [exchangeX_apply, h]

/-- The exchange along the first axis is idempotent when the axis is not
decomposed, or the subdomain is at least one halo wide along it: what it
sends are then owned cells, which it does not write. -/
theorem exchangeX_idem {α : Type} (g : Grid) (t : Topology) (f : DistField α)
    (hx : g.px ≤ 1 ∨ g.halo ≤ g.nx) (r i j k : Nat) :
    exchangeX g t (exchangeX g t f) r i j k = exchangeX g t f r i j k := by
  rw [exchangeX_apply g t (exchangeX g t f)]
  split_ifs with h1 h2 h3
  · rfl
  · have hx' : g.halo ≤ g.nx := hx.resolve_left h1
    rw [exchangeX_fixed g t f _ _ _ _ (Or.inr (by omega)), exchangeX_apply, if_neg h1, if_pos h2]
  · have hx' : g.halo ≤ g.nx := hx.resolve_left h1
    rw [exchangeX_fixed g t f _ _ _ _ (Or.inr (by omega)), exchangeX_apply, if_neg h1, if_neg h2,
      if_pos h3]
  · rfl

/-- On a row the exchange along the second axis does not write, the exchange
along the first axis gives the same after a `synchronize` as before it. -/
theorem exchangeX_synchronize_row {α : Type} (g : Grid) (t : Topology) (f : DistField α)
    (hx : g.px ≤ 1 ∨ g.halo ≤ g.nx) (r i j k : Nat)
    (h : g.py ≤ 1 ∨ (g.halo ≤ j ∧ ¬ (g.halo + g.ny ≤ j ∧ j < g.ny + 2 * g.halo))) :
    exchangeX g t (synchronize g t f) r i j k = exchangeX g t f r i j k := by
  rw [exchangeX_congr_row g t (synchronize g t f) (exchangeX g t f) j k
    (fun r' i' => exchangeY_fixed g t (exchangeX g t f) r' i' j k h)]
  exact exchangeX_idem g t f hx r i j k

/-- C7: `synchronize` leaves every owned interior cell of every process as
it was, for every grid, every neighbour lookup and every field; only halo
cells are written. -/
theorem synchronize_owned_unchanged {α : Type} (g : Grid) (t : Topology) (f : DistField α)
    (r i j k : Nat) (h : g.owned i j k) :
    synchronize g t f r i j k = f r i j k := by
  obtain ⟨⟨h1, h2⟩, ⟨h3, h4⟩, _⟩ := h
  show exchangeY g t (exchangeX g t f) r i j k = f r i j k
  rw [exchangeY_fixed g t _ r i j k (Or.inr (by omega)),
    exchangeX_fixed g t f r i j k (Or.inr (by omega))]

/-- Witness for C7: the owned cell `(1, 2, 0)` of rank 1 on the 2 by 1
decomposition keeps its value `1120`. -/
theorem synchronize_owned_unchanged_witness :
    exampleGrid.owned 1 2 0 ∧ exampleField 1 1 2 0 = 1120 ∧
    synchronize exampleGrid (periodicTopology 2 1) exampleField 1 1 2 0 = exampleField 1 1 2 0 :=
  ⟨by decide, by decide,
    synchronize_owned_unchanged exampleGrid (periodicTopology 2 1) exampleField 1 1 2 0
      (by decide)⟩

/-- A cell outside the local array is not written either. -/
theorem synchronize_outside_unchanged {α : Type} (g : Grid) (t : Topology) (f : DistField α)
    (r i j k : Nat) (hi : g.nx + 2 * g.halo ≤ i) (hj : g.ny + 2 * g.halo ≤ j) :
    synchronize g t f r i j k = f r i j k := by
  show exchangeY g t (exchangeX g t f) r i j k = f r i j k
  rw [exchangeY_fixed g t _ r i j k (Or.inr (by omega)),
    exchangeX_fixed g t f r i j k (Or.inr (by omega))]

/-! ## Theorems, Part II: the driver sequence -/

/-- A switch that is not recognised makes `init` fail with
`ConfigurationError`. -/
theorem init_unrecognised {σ : Type} (env : Collaborators σ) (cfg : Configuration)
    (k : SwitchKind) (h : env.recognised k (cfg.switch k) = false) :
    init env cfg = .error .ConfigurationError := by
  unfold init
  rw [if_neg]
  intro hall
  rw [List.all_eq_true] at hall
  have hk : k ∈ SwitchKind.all := by cases k <;> decide
  have := hall k hk
  rw [h] at this
  exact Bool.false_ne_true this

/-- C5: when the configured value of some switch kind is not a recognised
one, the run ends with `ConfigurationError` and has executed no time step,
whatever the collaborators, the rest of the configuration and the fuel. -/
theorem run_unrecognised_switch {σ : Type} (env : Collaborators σ) (cfg : Configuration)
    (fuel : Nat) (k : SwitchKind) (h : env.recognised k (cfg.switch k) = false) :
    (run env cfg fuel).result = .error .ConfigurationError ∧
    (run env cfg fuel).stepsExecuted = 0 := by
  unfold run
  rw [init_unrecognised env cfg k h]
  exact ⟨rfl, rfl⟩

/-- Witness for C5: the advection kind `9` is not recognised. -/
theorem run_unrecognised_switch_witness :
    exampleCollaborators.recognised .advection (badConfiguration.switch .advection) = false ∧
    (run exampleCollaborators badConfiguration 10).result = .error .ConfigurationError ∧
    (run exampleCollaborators badConfiguration 10).stepsExecuted = 0 :=
  ⟨by decide, run_unrecognised_switch exampleCollaborators badConfiguration 10 .advection
    (by decide)⟩

/-- With every switch recognised the same collaborators run to the end time:
three steps, no error. -/
theorem run_recognised_example :
    (run exampleCollaborators goodConfiguration 10).result = .ok ((), ⟨3, 3, 1, 1⟩) ∧
    (run exampleCollaborators goodConfiguration 10).stepsExecuted = 3 :=
  ⟨rfl, rfl⟩

end Microhh
